import Mathlib

/-
Verification development for the BinaryEthPredMarket repository.

Shallow embedding of the DSL-to-contract pipeline:
  * src/dsl/parser.py     (Lark grammar binding, MarketTransformer, parse_market)
  * src/market_generator.py (generate_contract)

Python dictionaries with a fixed key set are embedded as structures with
Option-typed fields (a `none` field models an absent key, so dict access
can raise KeyError).  Python exceptions are modelled with `Except`.
-/

namespace BinaryEthPredMarket

/-- The whitespace characters `int()` strips from both ends of its string
argument (ASCII subset; exotic unicode whitespace is out of scope for every
claim considered here). -/
def pyWhitespace (c : Char) : Bool :=
  c == ' ' || c == '\t' || c == '\n' || c == '\r' || c == '\x0b' || c == '\x0c'

/-- No two adjacent underscores (part of Python integer-literal syntax). -/
def noDoubleUnderscore : List Char → Bool
  | c1 :: c2 :: rest => !(c1 == '_' && c2 == '_') && noDoubleUnderscore (c2 :: rest)
  | _ => true

/-- A digit run acceptable to Python `int()` after sign stripping: nonempty,
digits possibly grouped by single underscores, starting and ending with a
digit. -/
def pyDigitRun (cs : List Char) : Bool :=
  !cs.isEmpty
    && cs.all (fun c => c.isDigit || c == '_')
    && (match cs.head? with | some c => c.isDigit | none => false)
    && (match cs.getLast? with | some c => c.isDigit | none => false)
    && noDoubleUnderscore cs

/-- Numeric value of a digit run (underscore separators removed). -/
def digitsVal (cs : List Char) : Nat :=
  (cs.filter (fun c => c != '_')).foldl (fun a c => 10 * a + (c.toNat - 48)) 0

/-- Embedding of Python `int(s)` on a base-10 string: strip surrounding
whitespace, optional sign, then a digit run; `none` models `ValueError`. -/
def pythonInt (s : String) : Option Int :=
  let cs := ((s.data.dropWhile pyWhitespace).reverse.dropWhile pyWhitespace).reverse
  match cs with
  | '+' :: rest => if pyDigitRun rest then some (Int.ofNat (digitsVal rest)) else none
  | '-' :: rest => if pyDigitRun rest then some (-(Int.ofNat (digitsVal rest))) else none
  | rest => if pyDigitRun rest then some (Int.ofNat (digitsVal rest)) else none

/-- Embedding of Python `s.rstrip('%')`: remove every trailing `%`. -/
def rstripPercent (s : String) : String :=
  ⟨(s.data.reverse.dropWhile (fun c => c == '%')).reverse⟩

/-- Embedding of Python `s.endswith('%')`. -/
def endsWithPercent (s : String) : Bool :=
  match s.data.getLast? with
  | some c => c == '%'
  | none => false

/-- Embedding of Python `s.strip('"')`: remove every leading and trailing
double-quote character. -/
def stripQuotes (s : String) : String :=
  ⟨(((s.data.dropWhile (fun c => c == '"')).reverse.dropWhile
      (fun c => c == '"')).reverse)⟩

/-- A Python value stored under the `fee` key of a market dict.  The pipeline
produces `int` fees (the transformer applies `int(...)`), while
`generate_contract` additionally handles `str` fees ending in `%`; these two
cases are the only ones any claim exercises. -/
inductive FeeVal where
  | int (n : Int)
  | str (s : String)
deriving DecidableEq

/-- Python exceptions reachable inside `generate_contract`: `KeyError` from a
missing dict key, `ValueError` from `int()` on a malformed numeral. -/
inductive GenError where
  | keyError (key : String)
  | valueError
deriving DecidableEq

/-- A market dictionary as flowing between parser and generator.  A `none`
field models an absent key. -/
structure MarketDict where
  question : Option String
  outcomes : Option (List String)
  oracle : Option String
  fee : Option FeeVal
  mechanism : Option String
deriving DecidableEq

/-- Embedding of the fee normalisation at the top of `generate_contract`
(src/market_generator.py lines 16-18): a `str` fee ending in `%` is rebound
to `int(fee.rstrip('%')) * 100`; any other value is left unchanged. -/
def convertFee : FeeVal → Except GenError FeeVal
  | .int n => .ok (.int n)
  | .str s =>
    if endsWithPercent s then
      match pythonInt (rstripPercent s) with
      | some n => .ok (.int (n * 100))
      | none => .error .valueError
    else .ok (.str s)

/-- The generated contract text before the single `market['mechanism']`
interpolation point, transcribed byte-for-byte from the f-string template of
`generate_contract` (with the f-string's doubled braces collapsed). -/
def contractPre : String :=
  "// SPDX-License-Identifier: MIT\n" ++
  "pragma solidity ^0.8.20;\n" ++
  "\n" ++
  "/// @title Binary Market Contract\n" ++
  "/// @notice A contract for creating and managing binary prediction markets\n" ++
  "/// @dev Uses a pool-based mechanism for trading\n" ++
  "contract BinaryMarket \x7b\n" ++
  "    // Market state\n" ++
  "    string public question;\n" ++
  "    address public oracle;\n" ++
  "    uint256 public fee;  // in basis points (1% = 100)\n" ++
  "    string public mechanism;\n" ++
  "    \n" ++
  "    // Outcomes\n" ++
  "    enum Outcome \x7b Yes, No \x7d\n" ++
  "    mapping(Outcome => uint256) public outcomeAmounts;\n" ++
  "    \n" ++
  "    // User positions\n" ++
  "    mapping(address => mapping(Outcome => uint256)) public userPositions;\n" ++
  "    \n" ++
  "    // Market status\n" ++
  "    bool public isResolved;\n" ++
  "    Outcome public winningOutcome;\n" ++
  "    \n" ++
  "    // Events\n" ++
  "    event MarketCreated(string question, address oracle, uint256 fee);\n" ++
  "    event PositionOpened(address user, Outcome outcome, uint256 amount);\n" ++
  "    event MarketResolved(Outcome winningOutcome);\n" ++
  "    event WinningsClaimed(address user, uint256 amount);\n" ++
  "    \n" ++
  "    /// @notice Creates a new binary prediction market\n" ++
  "    /// @param _question The question for the prediction market\n" ++
  "    /// @param _oracle The address that can resolve the market\n" ++
  "    /// @param _fee The fee in basis points (1% = 100)\n" ++
  "    constructor(\n" ++
  "        string memory _question,\n" ++
  "        address _oracle,\n" ++
  "        uint256 _fee\n" ++
  "    ) \x7b\n" ++
  "        require(_oracle != address(0), \"Invalid oracle address\");\n" ++
  "        require(_fee <= 1000, \"Fee too high\"); // Max 10%\n" ++
  "        \n" ++
  "        question = _question;\n" ++
  "        oracle = _oracle;\n" ++
  "        fee = _fee;\n" ++
  "        mechanism = \""

/-- The generated contract text after the interpolation point, transcribed
byte-for-byte from the same f-string template. -/
def contractPost : String :=
  "\";\n" ++
  "        \n" ++
  "        emit MarketCreated(_question, _oracle, _fee);\n" ++
  "    \x7d\n" ++
  "    \n" ++
  "    /// @notice Opens a position in the market\n" ++
  "    /// @param outcome The outcome to bet on (Yes or No)\n" ++
  "    /// @dev Requires sending ETH with the transaction\n" ++
  "    function openPosition(Outcome outcome) external payable \x7b\n" ++
  "        require(!isResolved, \"Market is resolved\");\n" ++
  "        require(msg.value > 0, \"Must bet some ETH\");\n" ++
  "        \n" ++
  "        // Update user position\n" ++
  "        userPositions[msg.sender][outcome] += msg.value;\n" ++
  "        \n" ++
  "        // Update outcome amounts\n" ++
  "        outcomeAmounts[outcome] += msg.value;\n" ++
  "        \n" ++
  "        emit PositionOpened(msg.sender, outcome, msg.value);\n" ++
  "    \x7d\n" ++
  "    \n" ++
  "    /// @notice Resolves the market with the winning outcome\n" ++
  "    /// @param _winningOutcome The winning outcome (Yes or No)\n" ++
  "    /// @dev Only callable by the oracle\n" ++
  "    function resolveMarket(Outcome _winningOutcome) external \x7b\n" ++
  "        require(msg.sender == oracle, \"Only oracle can resolve\");\n" ++
  "        require(!isResolved, \"Market already resolved\");\n" ++
  "        \n" ++
  "        isResolved = true;\n" ++
  "        winningOutcome = _winningOutcome;\n" ++
  "        \n" ++
  "        emit MarketResolved(_winningOutcome);\n" ++
  "    \x7d\n" ++
  "    \n" ++
  "    /// @notice Claims winnings for the caller\n" ++
  "    /// @dev Calculates proportional share of the winning pool\n" ++
  "    /// @return amount The amount of ETH claimed\n" ++
  "    function claimWinnings() external returns (uint256 amount) \x7b\n" ++
  "        require(isResolved, \"Market not resolved\");\n" ++
  "        \n" ++
  "        uint256 userAmount = userPositions[msg.sender][winningOutcome];\n" ++
  "        require(userAmount > 0, \"No winning position\");\n" ++
  "        \n" ++
  "        // Calculate winnings with optimized math to avoid precision loss\n" ++
  "        uint256 winningPool = outcomeAmounts[winningOutcome];\n" ++
  "        \n" ++
  "        // Calculate fee amount first\n" ++
  "        uint256 feeAmount = (winningPool * fee) / 10000;\n" ++
  "        uint256 netWinningPool = winningPool - feeAmount;\n" ++
  "        \n" ++
  "        // Calculate user's share using multiplication before division\n" ++
  "        amount = (userAmount * netWinningPool) / outcomeAmounts[winningOutcome];\n" ++
  "        \n" ++
  "        // Clear user position\n" ++
  "        userPositions[msg.sender][winningOutcome] = 0;\n" ++
  "        \n" ++
  "        // Transfer winnings\n" ++
  "        (bool success, ) = msg.sender.call\x7bvalue: amount\x7d(\"\");\n" ++
  "        require(success, \"Transfer failed\");\n" ++
  "        \n" ++
  "        emit WinningsClaimed(msg.sender, amount);\n" ++
  "    \x7d\n" ++
  "\x7d"

/-- Embedding of `generate_contract` (src/market_generator.py).  It reads
`market['fee']` (KeyError if absent), normalises it with `convertFee`
(ValueError possible), then renders the f-string, whose only interpolation is
`market['mechanism']` (KeyError if absent).  The normalised fee `_fee` is
bound but never interpolated into the template, matching the source. -/
def generate_contract (market : MarketDict) : Except GenError String :=
  match market.fee with
  | none => .error (.keyError "fee")
  | some feeVal =>
    match convertFee feeVal with
    | .error e => .error e
    | .ok _fee =>
      match market.mechanism with
      | none => .error (.keyError "mechanism")
      | some mech => .ok (contractPre ++ mech ++ contractPost)

/-- The typed result of parsing one `market { ... }` block, as assembled by
`MarketTransformer.market` (src/dsl/parser.py lines 33-40). -/
structure MarketAST where
  question : String
  outcomes : List String
  oracle : String
  fee : Int
  mechanism : String
deriving DecidableEq

/-- The merged dictionary produced by `MarketTransformer.fields` from the four
singleton field dictionaries (src/dsl/parser.py lines 42-43). -/
structure FieldsDict where
  outcomes : List String
  oracle : String
  fee : Int
  mechanism : String
deriving DecidableEq

namespace MarketTransformer

/-- Embedding of `MarketTransformer.outcomes`: ignores its children and
returns the fixed list. -/
def outcomes (_items : List String) : List String := ["Yes", "No"]

/-- Embedding of `MarketTransformer.oracle`: `items[0]`; `none` models the
IndexError on an empty child list (unreachable from the grammar). -/
def oracle (items : List String) : Option String := items.head?

/-- Embedding of `MarketTransformer.fee`: `int(items[0])`; `none` models
IndexError or ValueError (both unreachable from the grammar, whose NUMBER
token is a digit run). -/
def fee (items : List String) : Option Int :=
  items.head?.bind pythonInt

/-- Embedding of `MarketTransformer.trading_mechanism`: ignores its children
and returns `"pool"`. -/
def trading_mechanism (_items : List String) : String := "pool"

/-- Embedding of `MarketTransformer.market`: strips the quotes from the
question token and reads the four merged field entries. -/
def market (questionTok : String) (fields : FieldsDict) : MarketAST :=
  ⟨stripQuotes questionTok, fields.outcomes, fields.oracle, fields.fee,
    fields.mechanism⟩

end MarketTransformer

/-- The complete bottom-up reduction of a parse tree of the module grammar:
the `string`/`address`/`number` reductions pass their single token through,
the four field reductions run on their children, `fields` merges them, and
`market` assembles the AST.  `none` models a Python exception inside a
reduction. -/
def parseReduce (questionTok : String)
    (outcomesItems oracleItems feeItems mechItems : List String) :
    Option MarketAST :=
  match MarketTransformer.oracle oracleItems, MarketTransformer.fee feeItems with
  | some orc, some f =>
    some (MarketTransformer.market questionTok
      ⟨MarketTransformer.outcomes outcomesItems, orc, f,
        MarketTransformer.trading_mechanism mechItems⟩)
  | _, _ => none

/-- Failures of `parse_market` before or during parsing.  `fileNotFound`
models the `FileNotFoundError` raised by `Lark.open` on a missing grammar
file. -/
inductive ParseFailure where
  | fileNotFound (name : String)
  | larkEngine (text : String)
deriving DecidableEq

/-- Does `small` occur as a suffix of `big`? -/
def hasSuffixChars (small big : List Char) : Bool :=
  if big.length < small.length then false
  else small == big.drop (big.length - small.length)

/-- Does the repository path `path` resolve the relative name
`market_grammar.lark`, either exactly or as its base name in some
directory? -/
def resolvesGrammarFile (path : String) : Bool :=
  path == "market_grammar.lark"
    || hasSuffixChars ("/market_grammar.lark").data path.data

/-- The source files of this repository, the universe of files `Lark.open`
could resolve against. -/
def repoSourceFiles : List String :=
  ["src/dsl/parser.py", "src/market_generator.py", "src/test_parser.py",
   "src/analyze_calibration.py", "src/analysis/multi_run.py",
   "src/analysis/single_run.py"]

/-- Embedding of `parse_market` (src/dsl/parser.py lines 65-67): it calls
`Lark.open('market_grammar.lark', ...)`, which raises `FileNotFoundError`
unless a file of that name is available; the module-level `grammar` string is
never consulted.  The engine branch stands for Lark running a successfully
loaded grammar file; its behaviour is external-library behaviour that cannot
be modelled from this repository (no such file exists in it) and it is
unreachable for `repoSourceFiles`. -/
def parse_market (files : List String) (text : String) :
    Except ParseFailure MarketAST :=
  if files.any resolvesGrammarFile then
    .error (.larkEngine text)
  else
    .error (.fileNotFound "market_grammar.lark")

/-- An environment channel (wall-clock, randomness source, environment
variables) threaded explicitly to state environment-independence:
`generate_contract` reads none of these in the source, so the embedding
ignores the argument. -/
structure Env where
  time : Nat
  randomSeed : Nat
  envVars : List (String × String)

/-- `generate_contract` run under an explicit environment. -/
def generate_contract_env (_env : Env) (market : MarketDict) :
    Except GenError String :=
  generate_contract market

/-- Modelled from the spec: the escaping of an interpolated value for the
target language's string-literal syntax required by §4.4 (absent from the
source): double quotes and backslashes are backslash-escaped. -/
def escapeSol (s : String) : String :=
  ⟨s.data.foldr
    (fun c acc => if c == '"' || c == '\\' then '\\' :: c :: acc else c :: acc)
    []⟩

/-- Is some double quote in the character list not preceded by a backslash
(so that it would terminate a surrounding string literal)? -/
def hasUnescapedQuote : List Char → Bool
  | [] => false
  | '\\' :: _ :: rest => hasUnescapedQuote rest
  | '"' :: _ => true
  | _ :: rest => hasUnescapedQuote rest

/-- The concrete scenario document of the spec (§8). -/
def exampleDoc : String :=
  "market \"Will ETH reach $5000 in 2024?\" \x7b outcomes: Yes, No; " ++
  "oracle: 0x1234567890123456789012345678901234567890; fee: 1%; " ++
  "trading_mechanism: pool; \x7d"

/-- The validated market model of the spec's concrete scenario (§8):
`fee_bps = 100`. -/
def specModel : MarketDict :=
  ⟨some "Will ETH reach $5000 in 2024?", some ["Yes", "No"],
    some "0x1234567890123456789012345678901234567890", some (.int 100),
    some "pool"⟩

/-- `specModel` with a different oracle address and a different fee. -/
def specModelAlt : MarketDict :=
  ⟨some "Will ETH reach $5000 in 2024?", some ["Yes", "No"],
    some "0x0000000000000000000000000000000000000000", some (.int 999),
    some "pool"⟩

/-- A full market dictionary carrying the pipeline's value for a source fee
literal of 15 percent: the transformer yields the raw `int` 15. -/
def mFee15 : MarketDict :=
  ⟨some "Q", some ["Yes", "No"],
    some "0x1234567890123456789012345678901234567890", some (.int 15),
    some "pool"⟩

/-- A market dictionary whose mechanism value contains a double quote. -/
def mBadMech : MarketDict :=
  ⟨some "Q", some ["Yes", "No"],
    some "0x1234567890123456789012345678901234567890", some (.int 100),
    some "x\"y"⟩

/-- A market dictionary missing the required fields `question`, `oracle` and
`outcomes`. -/
def mMissingQuestion : MarketDict :=
  ⟨none, none, none, some (.int 100), some "pool"⟩

/-- A market dictionary agreeing with `specModel` only on `mechanism` (its
fee is the string `"2%"`, and every other field differs or is absent). -/
def mOnlyMechanism : MarketDict :=
  ⟨none, none, none, some (.str "2%"), some "pool"⟩

/-- The generator succeeds exactly when `fee` is present, its normalisation
does not raise, and `mechanism` is present. -/
def requiredForGeneration (m : MarketDict) : Bool :=
  match m.fee with
  | none => false
  | some fv =>
    (match convertFee fv with | .ok _ => true | .error _ => false)
      && m.mechanism.isSome

/-- `specModel` with the fee the actual pipeline would deliver for the fee
literal `1` (the raw percentage, unconverted). -/
def specModelFee1 : MarketDict :=
  ⟨some "Will ETH reach $5000 in 2024?", some ["Yes", "No"],
    some "0x1234567890123456789012345678901234567890", some (.int 1),
    some "pool"⟩

/-- The AST the transformer reductions assemble from the witness tokens of
`c9_witness`. -/
def astWitness : MarketAST :=
  ⟨"Q", ["Yes", "No"], "0x1234567890123456789012345678901234567890", 1,
    "pool"⟩

/-- C1: the pipeline performs no percentage-to-basis-points conversion on the
fees it actually produces, and nothing rejects an out-of-range fee: the
transformer turns the fee literal `1` into the raw `int` 1, the generator's
normalisation leaves an `int` fee unchanged (its `* 100` branch fires only
for `%`-suffixed strings), and a market carrying the fee literal 15 (> 10)
generates successfully with no FeeOutOfRange anywhere. -/
theorem c1_fee_units_divergence :
    MarketTransformer.fee ["1"] = some 1 ∧
    convertFee (FeeVal.int 1) = Except.ok (FeeVal.int 1) ∧
    (generate_contract mFee15).isOk = true := by
  refine ⟨by decide, rfl, rfl⟩

/-- C2: on the spec's concrete scenario, `parse_market` fails to load its
grammar file before parsing, and the generated contract text embeds neither
the fee value nor the oracle address: the output on the scenario's model is
`contractPre ++ "pool" ++ contractPost` and is unchanged when the oracle and
fee are replaced by different values. -/
theorem c2_concrete_scenario_divergence :
    parse_market repoSourceFiles exampleDoc =
        Except.error (ParseFailure.fileNotFound "market_grammar.lark") ∧
    generate_contract specModel =
        Except.ok (contractPre ++ "pool" ++ contractPost) ∧
    generate_contract specModel = generate_contract specModelAlt := by
  refine ⟨?_, rfl, rfl⟩
  have h : repoSourceFiles.any resolvesGrammarFile = false := by decide
  simp [parse_market, h]

/-- C3: the generator applies a percentage-to-basis-points conversion of its
own (it maps the string fee "1%" to 100), there is no separate Validator in
the program, and no fee value is emitted into the contract text at all (the
output is unchanged when the model's fee changes from 100 to 1). -/
theorem c3_generator_fee_conversion_divergence :
    convertFee (FeeVal.str "1%") = Except.ok (FeeVal.int 100) ∧
    generate_contract specModel = generate_contract specModelFee1 := by
  refine ⟨rfl, rfl⟩

/-- C4: `parse_market` builds its parser from the external file
`market_grammar.lark`, which no repository source file resolves, so for every
input string it fails with a file-loading error before any parsing is
attempted (the module-level grammar string is never consulted). -/
theorem c4_parse_market_always_file_error (text : String) :
    parse_market repoSourceFiles text =
      Except.error (ParseFailure.fileNotFound "market_grammar.lark") := by
  have h : repoSourceFiles.any resolvesGrammarFile = false := by decide
  simp [parse_market, h]

/-- C5: even on the spec's syntactically conforming concrete document,
parsing does not succeed with a populated MarketAST: `parse_market` fails
with the grammar-file-loading error, not with a parse result. -/
theorem c5_conforming_document_parse_fails :
    parse_market repoSourceFiles exampleDoc =
      Except.error (ParseFailure.fileNotFound "market_grammar.lark") := by
  have h : repoSourceFiles.any resolvesGrammarFile = false := by decide
  simp [parse_market, h]

/-- C6: the generator's output is independent of the environment (clock,
randomness, environment variables): two invocations under any two
environments on the same model yield identical results. -/
theorem c6_generator_deterministic (e1 e2 : Env) (m : MarketDict) :
    generate_contract_env e1 m = generate_contract_env e2 m := rfl

/-- C7: whenever `generate_contract` succeeds on two market dictionaries that
agree on `mechanism`, it returns byte-identical text: the question, oracle,
fee and outcomes entries have no influence on the output. -/
theorem c7_output_depends_only_on_mechanism (m1 m2 : MarketDict)
    (hmech : m1.mechanism = m2.mechanism)
    (h1 : (generate_contract m1).isOk = true)
    (h2 : (generate_contract m2).isOk = true) :
    generate_contract m1 = generate_contract m2 := by
  rcases hf1 : m1.fee with _ | fv1
  · simp [generate_contract, hf1, Except.isOk, Except.toBool] at h1
  rcases hf2 : m2.fee with _ | fv2
  · simp [generate_contract, hf2, Except.isOk, Except.toBool] at h2
  rcases hc1 : convertFee fv1 with e1 | f1
  · simp [generate_contract, hf1, hc1, Except.isOk, Except.toBool] at h1
  rcases hc2 : convertFee fv2 with e2 | f2
  · simp [generate_contract, hf2, hc2, Except.isOk, Except.toBool] at h2
  rcases hm1 : m1.mechanism with _ | mech1
  · simp [generate_contract, hf1, hc1, hm1, Except.isOk, Except.toBool] at h1
  rcases hm2 : m2.mechanism with _ | mech2
  · simp [generate_contract, hf2, hc2, hm2, Except.isOk, Except.toBool] at h2
  have hmm : mech1 = mech2 := by
    rw [hm1, hm2] at hmech
    exact Option.some.inj hmech
  subst hmm
  simp [generate_contract, hf1, hf2, hc1, hc2, hm1, hm2]

/-- Witness for C7: two concrete dictionaries sharing only the mechanism
value "pool" (every other field differs or is absent, and one fee is the
string "2%") generate identical text. -/
theorem c7_witness :
    generate_contract specModel = generate_contract mOnlyMechanism :=
  c7_output_depends_only_on_mechanism specModel mOnlyMechanism rfl rfl rfl

set_option maxRecDepth 100000 in
/-- C8: the generator inserts the mechanism value verbatim with no escaping:
on a mechanism containing a double quote the output is literally
`contractPre ++ "x\"y" ++ contractPost`, the inserted value contains an
unescaped quote, it differs from its escaped form, and the insertion point in
`contractPre` sits inside an open string literal (`mechanism = "`), which the
raw quote therefore terminates early.  The question value is never
interpolated at all. -/
theorem c8_mechanism_inserted_unescaped :
    generate_contract mBadMech =
        Except.ok (contractPre ++ "x\"y" ++ contractPost) ∧
    hasUnescapedQuote ("x\"y").data = true ∧
    escapeSol "x\"y" ≠ "x\"y" ∧
    hasSuffixChars ("mechanism = \"").data contractPre.data = true := by
  refine ⟨rfl, by decide, by decide, by decide⟩

/-- C9: the `outcomes` and `trading_mechanism` reductions are constant
functions, so every MarketAST assembled by the transformer from any parse
tree has outcomes exactly ["Yes", "No"] and mechanism exactly "pool". -/
theorem c9_outcomes_mechanism_constant
    (q : String) (oi orcI fi mi : List String) (ast : MarketAST)
    (h : parseReduce q oi orcI fi mi = some ast) :
    ast.outcomes = ["Yes", "No"] ∧ ast.mechanism = "pool" := by
  unfold parseReduce at h
  cases horc : MarketTransformer.oracle orcI with
  | none => rw [horc] at h; exact absurd h (by simp)
  | some orc =>
    cases hfee : MarketTransformer.fee fi with
    | none => rw [horc, hfee] at h; exact absurd h (by simp)
    | some f =>
      rw [horc, hfee] at h
      have hast := Option.some.inj h
      rw [← hast]
      exact ⟨rfl, rfl⟩

/-- Witness for C9: concrete tokens reduce to a concrete AST whose outcomes
and mechanism are the fixed values. -/
theorem c9_witness :
    astWitness.outcomes = ["Yes", "No"] ∧ astWitness.mechanism = "pool" :=
  c9_outcomes_mechanism_constant "\"Q\"" []
    ["0x1234567890123456789012345678901234567890"] ["1"] [] astWitness
    (by decide)

/-- Counterexample for C10: a dictionary missing the required model fields
`question`, `oracle` and `outcomes` still generates successfully, so the
generator does not fail whenever a required model field is absent. -/
theorem c10_counterexample_missing_required_field :
    (generate_contract mMissingQuestion).isOk = true ∧
    mMissingQuestion.question = none ∧ mMissingQuestion.oracle = none ∧
    mMissingQuestion.outcomes = none :=
  ⟨rfl, rfl, rfl, rfl⟩

/-- C10 (amended): the generator succeeds exactly when `fee` is present, the
fee normalisation does not raise, and `mechanism` is present; the entries
`question`, `oracle` and `outcomes` are never consulted, and no defaults are
substituted. -/
theorem c10_generator_failure_characterisation (m : MarketDict) :
    (generate_contract m).isOk = requiredForGeneration m := by
  rcases hf : m.fee with _ | fv
  · simp [generate_contract, requiredForGeneration, hf, Except.isOk,
      Except.toBool]
  rcases hc : convertFee fv with e | f
  · simp [generate_contract, requiredForGeneration, hf, hc, Except.isOk,
      Except.toBool]
  rcases hm : m.mechanism with _ | mech <;>
    simp [generate_contract, requiredForGeneration, hf, hc, hm, Except.isOk,
      Except.toBool]

end BinaryEthPredMarket
